import Mathlib

/-!
Shallow embedding of `src/oobabot/discord_bot.py` (the response
orchestration engine of the oobabot Discord client) and proofs of the
spec claims about it.

Modelling conventions:
* Python strings are Lean `String`s; `re.sub` over a single-character
  class is a character map.
* discord.py objects are modelled by records carrying exactly the
  fields the module reads (`author.id`, `channel.id`, `reference.resolved`,
  permission bits, ...).
* The external collaborators (decision gate, prompt generator, ooba
  client, image generator, repetition tracker, stats collector) are
  modelled as oracle inputs bundled in an `Env`; their invocations are
  recorded as `Event`s in an observable trace.
* `async` control flow is modelled by explicit traces: a spawned task is
  the list of events it will emit, and `asyncio.wait` (with its default
  `ALL_COMPLETED` policy) is an arbitrary interleaving of the spawned
  tasks' complete traces.
-/

namespace Oobabot

/-- The channel classes the module distinguishes via `isinstance`:
`discord.DMChannel`, `discord.TextChannel`, `discord.GroupChannel`,
`discord.Thread`, and anything else. -/
inductive ChannelType : Type where
  | dm
  | text
  | group
  | thread
  | unknown
  deriving DecidableEq, Repr

/-- A discord channel as read by the module: its id, its class, and its
name (used only in log lines). -/
structure Channel : Type where
  id : Nat
  ctype : ChannelType
  name : String
  deriving DecidableEq, Repr

/-- A discord user/member as read by the module.  `isMember` records
whether the object is a `discord.Member` (guild member) as opposed to a
plain `discord.User`. -/
structure RawUser : Type where
  id : Nat
  name : String
  bot : Bool
  isMember : Bool
  deriving DecidableEq, Repr

mutual
/-- A `discord.Message` as read by the module: id, author, content,
channel, mention ids, creation timestamp, and an optional reference to
the message it replies to. -/
inductive RawMessage : Type where
  | mk (id : Nat) (author : RawUser) (content : String) (channel : Channel)
      (mentions : List Nat) (created_at : Int)
      (reference : Option MessageReference) : RawMessage

/-- `discord.MessageReference`: may or may not have a resolved target. -/
inductive MessageReference : Type where
  | mk (resolved : Option ResolvedReference) : MessageReference

/-- What `reference.resolved` can be: a `DeletedReferencedMessage`, or a
full `discord.Message`. -/
inductive ResolvedReference : Type where
  | deletedMessage : ResolvedReference
  | message (m : RawMessage) : ResolvedReference
end

def RawMessage.id : RawMessage → Nat
  | .mk i _ _ _ _ _ _ => i

def RawMessage.author : RawMessage → RawUser
  | .mk _ a _ _ _ _ _ => a

def RawMessage.content : RawMessage → String
  | .mk _ _ c _ _ _ _ => c

def RawMessage.channel : RawMessage → Channel
  | .mk _ _ _ ch _ _ _ => ch

def RawMessage.mentions : RawMessage → List Nat
  | .mk _ _ _ _ ms _ _ => ms

def RawMessage.created_at : RawMessage → Int
  | .mk _ _ _ _ _ t _ => t

def RawMessage.reference : RawMessage → Option MessageReference
  | .mk _ _ _ _ _ _ r => r

def MessageReference.resolved : MessageReference → Option ResolvedReference
  | .mk r => r

/-- The shared keyword arguments (`generic_args`) of every
`GenericMessage` variant. -/
structure GenericArgs : Type where
  author_id : Nat
  author_name : String
  message_id : Nat
  body_text : String
  author_is_bot : Bool
  send_timestamp : Int
  deriving DecidableEq, Repr

/-- The three message shapes of `oobabot.types`: the `GenericMessage`
base (fallback), `DirectMessage`, and `ChannelMessage` (which
additionally carries a channel id and the mention ids). -/
inductive GenericMessage : Type where
  | generic (args : GenericArgs)
  | direct (args : GenericArgs)
  | channel (args : GenericArgs) (channel_id : Nat) (mentions : List Nat)
  deriving DecidableEq, Repr

/-- `FORBIDDEN_CHARACTERS = r"[\n\r\t]"`: membership of one character in
the class. -/
def forbidden_char (c : Char) : Bool :=
  c = '\n' || c = '\r' || c = '\t'

/-- One step of `FORBIDDEN_CHARACTERS_PATTERN.sub(" ", ·)`: the class
matches single characters, each replaced by one space. -/
def sanitize_char (c : Char) : Char :=
  if forbidden_char c then ' ' else c

/-- Python's `str.endswith`: does `s` end with `ending`?  (Lean's own
`String.endsWith` is equivalent but is not reducible by evaluation
inside proofs, so the suffix test is modelled on the character
lists.) -/
def endswith (s ending : String) : Bool :=
  ending.data.isSuffixOf s.data

/-- `sanitize_string`: replace every newline, carriage return and tab
with a single space. -/
def sanitize_string (raw_string : String) : String :=
  ⟨raw_string.data.map sanitize_char⟩

/-- `discord_message_to_generic_message`: convert a discord message to a
`GenericMessage` or subclass thereof.  DM channels give a
`DirectMessage`; text, group and thread channels give a
`ChannelMessage`; anything else falls back to the `GenericMessage`
base. -/
def discord_message_to_generic_message (raw_message : RawMessage) :
    GenericMessage :=
  let generic_args : GenericArgs :=
    { author_id := raw_message.author.id
      author_name := sanitize_string raw_message.author.name
      message_id := raw_message.id
      body_text := sanitize_string raw_message.content
      author_is_bot := raw_message.author.bot
      send_timestamp := raw_message.created_at }
  match raw_message.channel.ctype with
  | .dm => .direct generic_args
  | .text => .channel generic_args raw_message.channel.id raw_message.mentions
  | .group => .channel generic_args raw_message.channel.id raw_message.mentions
  | .thread => .channel generic_args raw_message.channel.id raw_message.mentions
  | .unknown => .generic generic_args

/-- Observable interactions of the orchestrator with the platform and
its collaborators.  `image_step` stands for one opaque unit of work of
the (external) image-generation task. -/
inductive Event : Type where
  | created_thread (thread_id : Nat) (name : String)
  | log_mention (channel_id : Nat)
  | get_throttle_message_id (channel_id : Nat)
  | log_request_arrived (prompt : String)
  | sent_message (channel_id : Nat) (text : String)
  | log_message (channel_id : Nat) (message : GenericMessage)
  | log_response_part
  | log_response_failure
  | log_response_success
  | image_step (tag : Nat)
  deriving DecidableEq, Repr

/-- The configuration and state of `DiscordBot` that the orchestration
code reads.  `bot_prompt_line` and `history_lines` stand for the
`prompt_generator` attributes of the same names;
`image_generator_configured` for `self.image_generator is not None`. -/
structure DiscordBot : Type where
  ai_name : String
  persona : String
  ai_user_id : Int
  image_generator_configured : Bool
  ignore_dms : Bool
  dont_split_responses : Bool
  reply_in_thread : Bool
  log_all_the_things : Bool
  bot_prompt_line : String
  history_lines : Nat
  channel_last_direct_response : List (Nat × Int)

/-- `DiscordBot.__init__`: record the configuration and initialize
`channel_last_direct_response` to the empty dict (`ai_user_id` starts
as `-1`). -/
def DiscordBot.init (ai_name persona : String)
    (image_generator_configured ignore_dms dont_split_responses
      reply_in_thread log_all_the_things : Bool)
    (bot_prompt_line : String) (history_lines : Nat) : DiscordBot :=
  { ai_name := ai_name
    persona := persona
    ai_user_id := -1
    image_generator_configured := image_generator_configured
    ignore_dms := ignore_dms
    dont_split_responses := dont_split_responses
    reply_in_thread := reply_in_thread
    log_all_the_things := log_all_the_things
    bot_prompt_line := bot_prompt_line
    history_lines := history_lines
    channel_last_direct_response := [] }

/-- Oracle for the external collaborators of one `on_message` run:
what the decision gate answers, whether the image generator finds an
image prompt, the author's `create_public_threads` permission bit, the
id discord assigns to a created thread, what the prompt generator
returns, the items the ooba client's stream yields (`Except.error`
models an exception raised while producing the next item), the result
of each `response_channel.send` call (indexed by how many sends
happened before it; `Except.error` models a raised send), the opaque
steps of the image-generation task, and the cooperative schedule by
which the spawned tasks' events interleave. -/
structure Env : Type where
  should_respond : Bool
  is_summon : Bool
  image_prompt : Option String
  create_public_threads : Bool
  thread_id : Nat
  generated_prompt : String
  request_as_string_items : List (Except Unit String)
  request_by_sentence_items : List (Except Unit String)
  send_results : Nat → Except Unit RawMessage
  image_task_steps : List Nat
  sched : List Bool

/-- The body of the `async for sentence in generator` loop of
`send_response_in_channel` (lines 410-438): filter out the bot prompt
line and continue; abort on a fragment ending in `" says:"`; otherwise
send the fragment, log the sent message to the repetition tracker keyed
by the origin channel id, and count one response part.  `k` is the
number of sends performed so far.  Returns the events of the loop and
whether an exception was raised (by the generator or by a send). -/
def send_fragments (bot_prompt_line : String)
    (origin_channel_id response_channel_id : Nat)
    (send_results : Nat → Except Unit RawMessage) :
    List (Except Unit String) → Nat → List Event × Bool
  | [], _ => ([], false)
  | .error _ :: _, _ => ([], true)
  | .ok sentence :: rest, k =>
    if bot_prompt_line = sentence then
      send_fragments bot_prompt_line origin_channel_id response_channel_id
        send_results rest k
    else if endswith sentence " says:" then
      ([], false)
    else
      match send_results k with
      | .error _ => ([], true)
      | .ok response_message =>
        let generic_response_message :=
          discord_message_to_generic_message response_message
        let r := send_fragments bot_prompt_line origin_channel_id
          response_channel_id send_results rest (k + 1)
        (Event.sent_message response_channel_id sentence ::
          Event.log_message origin_channel_id generic_response_message ::
          Event.log_response_part :: r.1, r.2)

/-- `send_response_in_channel` (lines 374-446): fetch the history and
the throttle marker (keyed by the origin channel id), generate the
prompt, register the request with the stats collector, stream the
response through `send_fragments`, and close with exactly one of
`log_response_failure` (when an exception was raised) or
`log_response_success` (on normal completion).  The value is the event
trace of the spawned task. -/
def send_response_in_channel (bot : DiscordBot) (env : Env)
    (raw_message : RawMessage) (response_channel : Channel) : List Event :=
  let generator :=
    if bot.dont_split_responses then env.request_as_string_items
    else env.request_by_sentence_items
  let r := send_fragments bot.bot_prompt_line raw_message.channel.id
    response_channel.id env.send_results generator 0
  Event.get_throttle_message_id raw_message.channel.id ::
    Event.log_request_arrived env.generated_prompt ::
    r.1 ++
    (if r.2 then [Event.log_response_failure]
      else [Event.log_response_success])

/-- The condition under which `send_response` (lines 296-323) declines
to respond at all: the reply-in-thread policy is on, the origin is a
`TextChannel`, the author is a `Member`, but the author lacks the
`create_public_threads` permission. -/
def send_response_declines (bot : DiscordBot) (env : Env)
    (raw_message : RawMessage) : Bool :=
  bot.reply_in_thread
    && raw_message.channel.ctype = ChannelType.text
    && raw_message.author.isMember
    && !env.create_public_threads

/-- `send_response` (lines 282-332): resolve the reply channel.  If the
reply-in-thread policy is on, the origin channel is a `TextChannel` and
the author is a `Member`, then either create a response thread (when
the author may create public threads) or return the `(None, None)`
sentinel pair; otherwise the origin channel is the target.  Returns the
events emitted synchronously and, unless declined, the resolved
channel (the spawned task's trace is `send_response_in_channel` at that
channel). -/
def send_response (bot : DiscordBot) (env : Env)
    (raw_message : RawMessage) : List Event × Option Channel :=
  if bot.reply_in_thread
      && raw_message.channel.ctype = ChannelType.text
      && raw_message.author.isMember then
    if env.create_public_threads then
      let response_channel : Channel :=
        { id := env.thread_id
          ctype := ChannelType.thread
          name := bot.ai_name ++ ": Response to " ++ raw_message.author.name }
      ([Event.created_thread response_channel.id response_channel.name],
        some response_channel)
    else
      ([], none)
  else
    ([], some raw_message.channel)

/-- `history_plus_thread_kickoff_message` (lines 334-362): yield every
message of the underlying history iterator, converted; then, if the
iterator was exhausted strictly under the limit and the last returned
message was a reply whose reference resolves to a concrete
`discord.Message`, yield that message as one final element. -/
def history_plus_thread_kickoff_message (aiter : List RawMessage)
    (limit : Nat) : List GenericMessage :=
  let base := aiter.map discord_message_to_generic_message
  match aiter.getLast? with
  | none => base
  | some last_returned =>
    if aiter.length < limit then
      match last_returned.reference with
      | none => base
      | some reference =>
        match reference.resolved with
        | some (.message m) => base ++ [discord_message_to_generic_message m]
        | _ => base
    else base

/-- `recent_messages_following_thread` (lines 364-372):
`channel.history(limit=history_lines)` yields at most `history_lines`
of the channel's messages (newest first, modelled by `List.take` on the
channel's full message list), fed through the kickoff-message repair
with the same limit. -/
def recent_messages_following_thread (bot : DiscordBot)
    (channel_full_history : List RawMessage) : List GenericMessage :=
  let history := channel_full_history.take bot.history_lines
  history_plus_thread_kickoff_message history bot.history_lines

/-- Cooperative interleaving of two spawned tasks' event traces under a
schedule: `true` steps the first task, `false` the second; a step of an
exhausted task, or an exhausted schedule, flushes the rest.  Every event
of both tasks occurs in the result — this is
`await asyncio.wait(response_tasks)` with its default `ALL_COMPLETED`
policy, under which `asyncio.wait` returns only once every task has
settled and never cancels a task. -/
def interleave {α : Type} : List Bool → List α → List α → List α
  | [], xs, ys => xs ++ ys
  | true :: s, xs, ys =>
    match xs with
    | [] => ys
    | x :: xs => x :: interleave s xs ys
  | false :: s, xs, ys =>
    match ys with
    | [] => xs
    | y :: ys => y :: interleave s xs ys

/-- Does this `GenericMessage` satisfy
`isinstance(message, ChannelMessage)`? -/
def GenericMessage.is_channel_message : GenericMessage → Bool
  | .channel _ _ _ => true
  | _ => false

/-- `message.channel_id` (only meaningful for a `ChannelMessage`). -/
def GenericMessage.get_channel_id : GenericMessage → Nat
  | .channel _ channel_id _ => channel_id
  | _ => 0

/-- Lines 255-262 of `on_message`: when the message was a summon and is
a `ChannelMessage`, possibly redirect its `channel_id` to the reply
thread and register the mention with the decision gate.  Returns the
updated message, the number of executions of the
`message.channel_id = response_channel.id` assignment (line 261), and
the emitted events. -/
def summon_update (env : Env) (message : GenericMessage)
    (response_channel : Channel) : GenericMessage × Nat × List Event :=
  match env.is_summon, message with
  | true, .channel args channel_id mentions =>
    if response_channel.ctype = ChannelType.thread then
      (GenericMessage.channel args response_channel.id mentions, 1,
        [Event.log_mention response_channel.id])
    else
      (GenericMessage.channel args channel_id mentions, 0,
        [Event.log_mention channel_id])
  | _, _ => (message, 0, [])

/-- Outcome of one `on_message` run: the full event trace up to the
return of `asyncio.wait`, the final state of the normalized `message`
object, and how many times its `channel_id` field was assigned after
construction (line 261). -/
structure OnMessageResult : Type where
  trace : List Event
  message : GenericMessage
  channel_id_rewrites : Nat
  deriving Repr

/-- `on_message` (lines 227-280): normalize, consult the decision gate,
query the image generator, resolve the channel via `send_response`
(aborting when it declines), rewrite the summoning `ChannelMessage`'s
channel id when the reply landed in a new thread and register the
mention, spawn the image task when an image was requested, and await
all spawned tasks. -/
def on_message (bot : DiscordBot) (env : Env) (raw_message : RawMessage) :
    OnMessageResult :=
  let message := discord_message_to_generic_message raw_message
  if !env.should_respond then
    { trace := [], message := message, channel_id_rewrites := 0 }
  else
    let image_prompt : Option String :=
      if bot.image_generator_configured then env.image_prompt else none
    let sr := send_response bot env raw_message
    match sr.2 with
    | none =>
      -- we failed to create a thread that the user could read our
      -- response in, so we're done here.  Abort!
      { trace := sr.1, message := message, channel_id_rewrites := 0 }
    | some response_channel =>
      let su := summon_update env message response_channel
      let message_task :=
        send_response_in_channel bot env raw_message response_channel
      let image_task : Option (List Event) :=
        if bot.image_generator_configured && image_prompt.isSome then
          some (env.image_task_steps.map Event.image_step)
        else none
      let tasks_trace :=
        match image_task with
        | none => message_task
        | some image_events => interleave env.sched message_task image_events
      { trace := sr.1 ++ su.2.2 ++ tasks_trace
        message := su.1
        channel_id_rewrites := su.2.1 }

/-! ### Helper predicates and lemmas -/

def Event.is_sent_message : Event → Bool
  | .sent_message _ _ => true
  | _ => false

def Event.is_log_message : Event → Bool
  | .log_message _ _ => true
  | _ => false

def Event.is_created_thread : Event → Bool
  | .created_thread _ _ => true
  | _ => false

def Event.is_log_mention : Event → Bool
  | .log_mention _ => true
  | _ => false

def Event.is_log_response_part : Event → Bool
  | .log_response_part => true
  | _ => false

def Event.is_log_response_failure : Event → Bool
  | .log_response_failure => true
  | _ => false

def Event.is_log_response_success : Event → Bool
  | .log_response_success => true
  | _ => false

/-- The thread-kickoff repair value of lines 355-362: the message the
last returned history item replied to, when it resolves to a concrete
`discord.Message`. -/
def kickoff_repair (aiter : List RawMessage) : Option RawMessage :=
  match aiter.getLast? with
  | none => none
  | some last_returned =>
    match last_returned.reference with
    | none => none
    | some reference =>
      match reference.resolved with
      | some (.message m) => some m
      | _ => none

/-! ### Sample concrete inputs (used by the witness theorems) -/

def sample_origin_channel : Channel :=
  { id := 10, ctype := .text, name := "general" }

def sample_author : RawUser :=
  { id := 5, name := "alice", bot := false, isMember := true }

def sample_raw_message : RawMessage :=
  .mk 100 sample_author "hi" sample_origin_channel [7] 0 none

def sample_sent_raw : RawMessage :=
  .mk 200 { id := 7, name := "Rosie", bot := true, isMember := true }
    "Hello." { id := 11, ctype := .thread, name := "t" } [] 1 none

def sample_kickoff : RawMessage :=
  .mk 90 sample_author "start" sample_origin_channel [] 0 none

def sample_reply : RawMessage :=
  .mk 91 sample_author "reply" sample_origin_channel [] 0
    (some (.mk (some (.message sample_kickoff))))

def sample_thread : Channel :=
  { id := 11, ctype := .thread, name := "Rosie: Response to alice" }

def sample_env : Env :=
  { should_respond := true
    is_summon := true
    image_prompt := some "cat"
    create_public_threads := true
    thread_id := 11
    generated_prompt := "PROMPT"
    request_as_string_items := [.ok "Hello. I am well."]
    request_by_sentence_items := [.ok "Hello.", .ok "I am well."]
    send_results := fun _ => .ok sample_sent_raw
    image_task_steps := [0, 1]
    sched := [true, false] }

/-- Like `sample_env` but the author lacks thread-creation permission. -/
def sample_env_declined : Env :=
  { sample_env with create_public_threads := false }

/-- Like `sample_env` but the generation stream raises after the first
fragment. -/
def sample_env_err : Env :=
  { sample_env with
      request_by_sentence_items := [.ok "Hello.", .error ()] }

def sample_bot : DiscordBot :=
  DiscordBot.init "Rosie" "a friendly robot" true false false true false
    "Rosie says:" 7

/-- Like `sample_bot` but with the reply-in-thread policy disabled. -/
def sample_bot_no_thread : DiscordBot :=
  DiscordBot.init "Rosie" "a friendly robot" true false false false false
    "Rosie says:" 7

/-! ### Helper lemmas -/

/-- The interleaving of two traces is a permutation of their
concatenation: every event of both tasks occurs, exactly once. -/
theorem interleave_perm {α : Type} :
    ∀ (s : List Bool) (xs ys : List α), (interleave s xs ys).Perm (xs ++ ys)
  | [], _, _ => List.Perm.refl _
  | true :: s, [], ys => by simp [interleave]
  | true :: s, x :: xs, ys => by
    simpa [interleave] using (interleave_perm s xs ys).cons x
  | false :: s, xs, [] => by simp [interleave]
  | false :: s, xs, y :: ys => by
    simp only [interleave]
    exact ((interleave_perm s xs ys).cons y).trans List.perm_middle.symm

/-- The first task's trace is a subsequence of the interleaving: its
events all occur, in order. -/
theorem interleave_sublist_left {α : Type} :
    ∀ (s : List Bool) (xs ys : List α), List.Sublist xs (interleave s xs ys)
  | [], xs, ys => List.sublist_append_left xs ys
  | true :: s, [], ys => List.nil_sublist ys
  | true :: s, x :: xs, ys => by
    simpa [interleave] using (interleave_sublist_left s xs ys).cons₂ x
  | false :: s, xs, [] => by simp [interleave]
  | false :: s, xs, y :: ys => by
    simpa [interleave] using (interleave_sublist_left s xs ys).cons y

/-- The second task's trace is a subsequence of the interleaving. -/
theorem interleave_sublist_right {α : Type} :
    ∀ (s : List Bool) (xs ys : List α), List.Sublist ys (interleave s xs ys)
  | [], xs, ys => List.sublist_append_right xs ys
  | true :: s, [], ys => by simp [interleave]
  | true :: s, x :: xs, ys => by
    simpa [interleave] using (interleave_sublist_right s xs ys).cons x
  | false :: s, xs, [] => List.nil_sublist xs
  | false :: s, xs, y :: ys => by
    simpa [interleave] using (interleave_sublist_right s xs ys).cons₂ y

/-- Every event emitted by the streaming loop is a send, a
repetition-tracker report keyed by the origin channel id of a
normalizer-converted sent message, or a part count. -/
theorem send_fragments_mem (marker : String) (oid rid : Nat)
    (sr : Nat → Except Unit RawMessage) :
    ∀ (frags : List (Except Unit String)) (k : Nat),
      ∀ e ∈ (send_fragments marker oid rid sr frags k).1,
        (∃ s, e = Event.sent_message rid s) ∨
        (∃ rm, e = Event.log_message oid
          (discord_message_to_generic_message rm)) ∨
        e = Event.log_response_part
  | [], _ => by simp [send_fragments]
  | .error u :: rest, k => by simp [send_fragments]
  | .ok s :: rest, k => by
    by_cases h1 : marker = s
    · simpa [send_fragments, h1] using send_fragments_mem marker oid rid sr rest k
    · by_cases h2 : endswith s " says:"
      · simp [send_fragments, h1, h2]
      · cases hsr : sr k with
        | error u => simp [send_fragments, h1, h2, hsr]
        | ok rm =>
          intro e he
          simp [send_fragments, h1, h2, hsr] at he
          rcases he with he | he | he | he
          · exact Or.inl ⟨s, he⟩
          · exact Or.inr (Or.inl ⟨rm, he⟩)
          · exact Or.inr (Or.inr he)
          · exact send_fragments_mem marker oid rid sr rest (k + 1) e he

/-- The streaming loop emits exactly as many sends as
repetition-tracker reports as part counts. -/
theorem send_fragments_count (marker : String) (oid rid : Nat)
    (sr : Nat → Except Unit RawMessage) :
    ∀ (frags : List (Except Unit String)) (k : Nat),
      (send_fragments marker oid rid sr frags k).1.countP Event.is_sent_message
          = (send_fragments marker oid rid sr frags k).1.countP
            Event.is_log_response_part
        ∧ (send_fragments marker oid rid sr frags k).1.countP
            Event.is_log_message
          = (send_fragments marker oid rid sr frags k).1.countP
            Event.is_log_response_part
  | [], _ => by simp [send_fragments]
  | .error u :: rest, k => by simp [send_fragments]
  | .ok s :: rest, k => by
    by_cases h1 : marker = s
    · simpa [send_fragments, h1] using send_fragments_count marker oid rid sr rest k
    · by_cases h2 : endswith s " says:"
      · simp [send_fragments, h1, h2]
      · cases hsr : sr k with
        | error u => simp [send_fragments, h1, h2, hsr]
        | ok rm =>
          have ih := send_fragments_count marker oid rid sr rest (k + 1)
          simp [send_fragments, h1, h2, hsr, List.countP_cons,
            Event.is_sent_message, Event.is_log_message,
            Event.is_log_response_part, ih.1, ih.2]

/-- Any event class avoided by sends, tracker reports and part counts
never occurs in the streaming loop's trace. -/
theorem send_fragments_countP_zero (marker : String) (oid rid : Nat)
    (sr : Nat → Except Unit RawMessage) (frags : List (Except Unit String))
    (k : Nat) (p : Event → Bool)
    (hs : ∀ s, p (Event.sent_message rid s) = false)
    (hl : ∀ rm, p (Event.log_message oid
      (discord_message_to_generic_message rm)) = false)
    (hp : p Event.log_response_part = false) :
    (send_fragments marker oid rid sr frags k).1.countP p = 0 := by
  rw [List.countP_eq_zero]
  intro e he
  rcases send_fragments_mem marker oid rid sr frags k e he with
    ⟨s, rfl⟩ | ⟨rm, rfl⟩ | rfl
  · simp [hs]
  · simp [hl]
  · simp [hp]

/-- Case analysis of the channel-id rewrite and mention registration of
lines 255-262. -/
theorem summon_update_cases (env : Env) (message : GenericMessage)
    (ch : Channel) :
    (∃ args cid mentions, env.is_summon = true
      ∧ message = .channel args cid mentions
      ∧ ((ch.ctype = ChannelType.thread
          ∧ summon_update env message ch
            = (.channel args ch.id mentions, 1, [Event.log_mention ch.id]))
        ∨ (ch.ctype ≠ ChannelType.thread
          ∧ summon_update env message ch
            = (message, 0, [Event.log_mention cid])))) ∨
    summon_update env message ch = (message, 0, []) := by
  cases hsum : env.is_summon with
  | false => cases message <;> simp [summon_update, hsum]
  | true =>
    cases message with
    | channel args cid mentions =>
      left
      refine ⟨args, cid, mentions, rfl, rfl, ?_⟩
      by_cases hct : ch.ctype = ChannelType.thread
      · exact Or.inl ⟨hct, by simp [summon_update, hsum, hct]⟩
      · exact Or.inr ⟨hct, by simp [summon_update, hsum, hct]⟩
    | generic args => right; simp [summon_update, hsum]
    | direct args => right; simp [summon_update, hsum]

/-- Unfolding of `on_message` once the decision gate has accepted and
channel resolution has succeeded. -/
theorem on_message_eq (bot : DiscordBot) (env : Env) (raw : RawMessage)
    (ch : Channel) (h1 : env.should_respond = true)
    (h2 : (send_response bot env raw).2 = some ch) :
    on_message bot env raw =
      { trace := (send_response bot env raw).1
          ++ (summon_update env (discord_message_to_generic_message raw) ch).2.2
          ++ (if bot.image_generator_configured && env.image_prompt.isSome then
                interleave env.sched (send_response_in_channel bot env raw ch)
                  (env.image_task_steps.map Event.image_step)
              else send_response_in_channel bot env raw ch)
        message := (summon_update env (discord_message_to_generic_message raw) ch).1
        channel_id_rewrites :=
          (summon_update env (discord_message_to_generic_message raw) ch).2.1 } := by
  cases hc : bot.image_generator_configured <;>
    cases hp : env.image_prompt <;>
      simp [on_message, h1, h2, hc, hp]

/-- Counting over an interleaving adds the two tasks' counts. -/
theorem interleave_countP {α : Type} (p : α → Bool) (s : List Bool)
    (xs ys : List α) :
    (interleave s xs ys).countP p = xs.countP p + ys.countP p := by
  simpa [List.countP_append] using (interleave_perm s xs ys).countP_eq p

/-- Every event of the reply task's trace is the throttle query (keyed
by the origin channel), the request registration, a send into the
response channel, a repetition-tracker report keyed by the origin
channel of a normalizer-converted message, a part count, or a terminal
failure/success report. -/
theorem send_response_in_channel_mem (bot : DiscordBot) (env : Env)
    (raw : RawMessage) (ch : Channel) :
    ∀ e ∈ send_response_in_channel bot env raw ch,
      e = Event.get_throttle_message_id raw.channel.id
      ∨ e = Event.log_request_arrived env.generated_prompt
      ∨ (∃ s, e = Event.sent_message ch.id s)
      ∨ (∃ rm, e = Event.log_message raw.channel.id
          (discord_message_to_generic_message rm))
      ∨ e = Event.log_response_part
      ∨ e = Event.log_response_failure
      ∨ e = Event.log_response_success := by
  intro e he
  simp only [send_response_in_channel, List.mem_cons, List.mem_append] at he
  rcases he with (rfl | rfl | he) | he
  · exact Or.inl rfl
  · exact Or.inr (Or.inl rfl)
  · rcases send_fragments_mem _ _ _ _ _ _ e he with ⟨s, rfl⟩ | ⟨rm, rfl⟩ | rfl
    · exact Or.inr (Or.inr (Or.inl ⟨s, rfl⟩))
    · exact Or.inr (Or.inr (Or.inr (Or.inl ⟨rm, rfl⟩)))
    · exact Or.inr (Or.inr (Or.inr (Or.inr (Or.inl rfl))))
  · split at he <;> split at he <;>
      simp only [List.mem_singleton] at he <;> subst he
    · exact Or.inr (Or.inr (Or.inr (Or.inr (Or.inr (Or.inl rfl)))))
    · exact Or.inr (Or.inr (Or.inr (Or.inr (Or.inr (Or.inr rfl)))))
    · exact Or.inr (Or.inr (Or.inr (Or.inr (Or.inr (Or.inl rfl)))))
    · exact Or.inr (Or.inr (Or.inr (Or.inr (Or.inr (Or.inr rfl)))))

/-- Any event class avoided by all the reply task's event forms never
occurs in its trace. -/
theorem send_response_in_channel_countP_zero (bot : DiscordBot) (env : Env)
    (raw : RawMessage) (ch : Channel) (p : Event → Bool)
    (h1 : p (Event.get_throttle_message_id raw.channel.id) = false)
    (h2 : p (Event.log_request_arrived env.generated_prompt) = false)
    (hs : ∀ s, p (Event.sent_message ch.id s) = false)
    (hl : ∀ rm, p (Event.log_message raw.channel.id
      (discord_message_to_generic_message rm)) = false)
    (hp : p Event.log_response_part = false)
    (hf : p Event.log_response_failure = false)
    (hsu : p Event.log_response_success = false) :
    (send_response_in_channel bot env raw ch).countP p = 0 := by
  rw [List.countP_eq_zero]
  intro e he
  rcases send_response_in_channel_mem bot env raw ch e he with
    rfl | rfl | ⟨s, rfl⟩ | ⟨rm, rfl⟩ | rfl | rfl | rfl <;>
    simp [h1, h2, hs, hl, hp, hf, hsu]

/-- The synchronous events of channel resolution: nothing, or exactly
one thread creation. -/
theorem send_response_first (bot : DiscordBot) (env : Env)
    (raw : RawMessage) :
    (send_response bot env raw).1 = []
    ∨ (send_response bot env raw).1
      = [Event.created_thread env.thread_id
          (bot.ai_name ++ ": Response to " ++ raw.author.name)] := by
  unfold send_response
  by_cases hc : bot.reply_in_thread = true
      ∧ raw.channel.ctype = ChannelType.text ∧ raw.author.isMember = true
  · rcases hc with ⟨hc1, hc2, hc3⟩
    cases hp : env.create_public_threads <;>
      simp [hc1, hc2, hc3, hp]
  · left
    simp only [Bool.and_eq_true, decide_eq_true_eq]
    rw [if_neg]
    intro h
    exact hc ⟨h.1.1, h.1.2, h.2⟩

/-- The channel that resolution returns is the origin channel, or the
thread created under the reply-in-thread conditions. -/
theorem send_response_channel_cases (bot : DiscordBot) (env : Env)
    (raw : RawMessage) (ch : Channel)
    (h : (send_response bot env raw).2 = some ch) :
    ch = raw.channel
    ∨ (bot.reply_in_thread = true ∧ raw.channel.ctype = ChannelType.text
      ∧ raw.author.isMember = true ∧ env.create_public_threads = true
      ∧ ch = { id := env.thread_id, ctype := ChannelType.thread,
               name := bot.ai_name ++ ": Response to " ++ raw.author.name }) := by
  unfold send_response at h
  by_cases hc : bot.reply_in_thread = true
      ∧ raw.channel.ctype = ChannelType.text ∧ raw.author.isMember = true
  · rcases hc with ⟨hc1, hc2, hc3⟩
    cases hp : env.create_public_threads <;>
      simp [hc1, hc2, hc3, hp] at h
    exact Or.inr ⟨hc1, hc2, hc3, rfl, h.symm⟩
  · left
    simp only [Bool.and_eq_true, decide_eq_true_eq] at h
    rw [if_neg] at h
    · simpa using h.symm
    · intro hcon
      exact hc ⟨hcon.1.1, hcon.1.2, hcon.2⟩

/-- A normalized message with the `ChannelMessage` shape carries the
origin channel's id. -/
theorem converted_channel_id (raw : RawMessage) (args : GenericArgs)
    (cid : Nat) (mentions : List Nat)
    (h : discord_message_to_generic_message raw
      = .channel args cid mentions) :
    cid = raw.channel.id := by
  unfold discord_message_to_generic_message at h
  cases hct : raw.channel.ctype <;> simp [hct] at h <;> exact h.2.1.symm

/-- Every mention registered by lines 255-262 carries the channel id of
the (possibly rewritten) message. -/
theorem summon_update_mention (env : Env) (message : GenericMessage)
    (ch : Channel) :
    ∀ cid, Event.log_mention cid ∈ (summon_update env message ch).2.2 →
      cid = (summon_update env message ch).1.get_channel_id := by
  intro cid hmem
  rcases summon_update_cases env message ch with
    ⟨args, cid0, mentions, hsum, hmsg, ⟨hct, heq⟩ | ⟨hct, heq⟩⟩ | heq <;>
    rw [heq] at hmem ⊢ <;> simp at hmem <;>
    simp [hmem, GenericMessage.get_channel_id, hmsg]

/-- Lines 255-262 emit only mention registrations. -/
theorem summon_update_countP_zero (env : Env) (message : GenericMessage)
    (ch : Channel) (p : Event → Bool)
    (hm : ∀ cid, p (Event.log_mention cid) = false) :
    (summon_update env message ch).2.2.countP p = 0 := by
  rcases summon_update_cases env message ch with
    ⟨args, cid0, mentions, hsum, hmsg, ⟨hct, heq⟩ | ⟨hct, heq⟩⟩ | heq <;>
    rw [heq] <;> simp [hm]

/-- Closed form of the history assembler: the converted stream plus the
kickoff repair when the stream ran out strictly under the limit. -/
theorem history_plus_eq (aiter : List RawMessage) (limit : Nat) :
    history_plus_thread_kickoff_message aiter limit
      = aiter.map discord_message_to_generic_message
        ++ (if aiter.length < limit then
              ((kickoff_repair aiter).map
                discord_message_to_generic_message).toList
            else []) := by
  unfold history_plus_thread_kickoff_message kickoff_repair
  cases hl : aiter.getLast? with
  | none => simp
  | some last =>
    by_cases hlt : aiter.length < limit
    · cases href : last.reference with
      | none => simp [hlt, href]
      | some r =>
        cases hres : r.resolved with
        | none => simp [hlt, href, hres]
        | some rr => cases rr <;> simp [hlt, href, hres]
    · simp [hlt]

/-- The assembled history never exceeds the limit by more than one
entry when the underlying stream respects the limit. -/
theorem history_plus_len_le (aiter : List RawMessage) (limit : Nat)
    (h : aiter.length ≤ limit) :
    (history_plus_thread_kickoff_message aiter limit).length ≤ limit + 1 := by
  rw [history_plus_eq]
  by_cases hlt : aiter.length < limit <;>
    cases hk : kickoff_repair aiter <;>
    simp [hlt, hk] <;> omega

/-! ### Claim theorems -/

/-- C9: for every input string, sanitization replaces each newline,
carriage return and tab with exactly one space: the output contains
none of those three characters, has the same length as the input, and
at every index carries the input's character unchanged when it was not
forbidden, and a space when it was. -/
theorem C9_sanitize_string (s : String) :
    (sanitize_string s).length = s.length
    ∧ (∀ c ∈ (sanitize_string s).data, forbidden_char c = false)
    ∧ (∀ (i : Nat) (c : Char), s.data[i]? = some c →
        (forbidden_char c = true →
          (sanitize_string s).data[i]? = some ' ')
        ∧ (forbidden_char c = false →
          (sanitize_string s).data[i]? = some c)) := by
  refine ⟨?_, ?_, ?_⟩
  · cases s with
    | mk data => simp [sanitize_string, String.length]
  · intro c hc
    obtain ⟨a, -, rfl⟩ : ∃ a ∈ s.data, sanitize_char a = c := by
      simpa [sanitize_string] using hc
    cases h : forbidden_char a with
    | true => simp [sanitize_char, h]; decide
    | false => simp [sanitize_char, h]
  · intro i c hc
    have hm : (sanitize_string s).data[i]? = some (sanitize_char c) := by
      have hd : (sanitize_string s).data = s.data.map sanitize_char := rfl
      rw [hd, List.getElem?_map, hc]
      rfl
    constructor <;> intro hf <;> rw [hm] <;> simp [sanitize_char, hf]

/-- Witness for C9 on the concrete string `"a\n\tb"`: the newline at
index 1 becomes a space, the letter at index 3 is preserved. -/
theorem C9_witness :
    (("a\n\tb".data[1]? = some '\n')
      ∧ (sanitize_string "a\n\tb").data[1]? = some ' ')
    ∧ (("a\n\tb".data[3]? = some 'b')
      ∧ (sanitize_string "a\n\tb").data[3]? = some 'b') :=
  ⟨⟨by decide, ((C9_sanitize_string "a\n\tb").2.2 1 '\n' (by decide)).1 (by decide)⟩,
   ⟨by decide, ((C9_sanitize_string "a\n\tb").2.2 3 'b' (by decide)).2 (by decide)⟩⟩

/-- C5: when the underlying history stream is exhausted strictly under
the budget and its last message is a reply resolving to a concrete
message, the assembled sequence is the converted stream plus exactly
that resolved message at the end; the assembled sequence never exceeds
the budget by more than one entry (the stream itself, produced by
`channel.history(limit=...)`, never exceeds it); and when the stream
fills the budget or the last message is not a resolvable reply, nothing
is added. -/
theorem C5_history_kickoff (aiter : List RawMessage) (limit : Nat) :
    (∀ m, aiter.length < limit → kickoff_repair aiter = some m →
      history_plus_thread_kickoff_message aiter limit
          = aiter.map discord_message_to_generic_message
            ++ [discord_message_to_generic_message m]
        ∧ (history_plus_thread_kickoff_message aiter limit).length
          = aiter.length + 1)
    ∧ (aiter.length ≤ limit →
        (history_plus_thread_kickoff_message aiter limit).length ≤ limit + 1)
    ∧ ((limit ≤ aiter.length ∨ kickoff_repair aiter = none) →
        history_plus_thread_kickoff_message aiter limit
          = aiter.map discord_message_to_generic_message)
    ∧ (∀ (bot : DiscordBot) (channel_full_history : List RawMessage),
        (recent_messages_following_thread bot channel_full_history).length
          ≤ bot.history_lines + 1) := by
  refine ⟨?_, history_plus_len_le aiter limit, ?_, ?_⟩
  · intro m hlt hk
    rw [history_plus_eq, if_pos hlt, hk]
    simp
  · intro h
    rcases h with h | h
    · rw [history_plus_eq, if_neg (by omega)]
      simp
    · rw [history_plus_eq, h]
      by_cases hlt : aiter.length < limit <;> simp [hlt]
  · intro bot full
    exact history_plus_len_le _ _ (List.length_take_le _ _)

/-- Witness for C5: a one-message stream under a budget of 3 whose
message replies to `sample_kickoff` gains exactly that message; with a
budget of 1 the stream fills the budget and nothing is added. -/
theorem C5_witness :
    (history_plus_thread_kickoff_message [sample_reply] 3
        = [discord_message_to_generic_message sample_reply,
           discord_message_to_generic_message sample_kickoff]
      ∧ (history_plus_thread_kickoff_message [sample_reply] 3).length = 1 + 1)
    ∧ history_plus_thread_kickoff_message [sample_reply] 1
        = [discord_message_to_generic_message sample_reply] :=
  ⟨((C5_history_kickoff [sample_reply] 3).1 sample_kickoff (by decide) rfl).imp
      (fun h => by simpa using h) (fun h => by simpa using h),
   by simpa using (C5_history_kickoff [sample_reply] 1).2.2.1 (Or.inl (by decide))⟩

/-- C2: the fragment filters, in the order the loop applies them.  A
fragment equal to the configured bot-prompt-line marker is dropped and
the loop continues exactly as if it had not occurred (this check comes
first, so it wins even when the marker itself ends in `" says:"`); a
remaining fragment ending in `" says:"` stops the loop at once — no
event for it or for any later fragment, no exception (so already-sent
fragments stay sent and the run still completes normally); any other
fragment is sent as one platform message, reported to the repetition
tracker, and counted, before the rest of the stream is processed. -/
theorem C2_fragment_filters (marker : String) (oid rid : Nat)
    (sr : Nat → Except Unit RawMessage)
    (rest : List (Except Unit String)) (k : Nat) (s : String) :
    (marker = s →
      send_fragments marker oid rid sr (.ok s :: rest) k
        = send_fragments marker oid rid sr rest k)
    ∧ (marker ≠ s → endswith s " says:" = true →
      send_fragments marker oid rid sr (.ok s :: rest) k = ([], false))
    ∧ (marker ≠ s → endswith s " says:" = false →
      ∀ rm, sr k = .ok rm →
        send_fragments marker oid rid sr (.ok s :: rest) k
          = (Event.sent_message rid s
              :: Event.log_message oid (discord_message_to_generic_message rm)
              :: Event.log_response_part
              :: (send_fragments marker oid rid sr rest (k + 1)).1,
            (send_fragments marker oid rid sr rest (k + 1)).2)) :=
  ⟨fun h1 => by simp [send_fragments, h1],
   fun h1 h2 => by simp [send_fragments, h1, h2],
   fun h1 h2 rm h3 => by simp [send_fragments, h1, h2, h3]⟩

/-- Witness for C2 with marker `"Rosie says:"`: the marker fragment is
skipped, `"Narrator says:"` aborts, `"Hello."` is sent. -/
theorem C2_witness :
    (send_fragments "Rosie says:" 10 11 sample_env.send_results
        [.ok "Rosie says:"] 0
      = send_fragments "Rosie says:" 10 11 sample_env.send_results [] 0)
    ∧ (send_fragments "Rosie says:" 10 11 sample_env.send_results
        [.ok "Narrator says:", .ok "ignored"] 0 = ([], false))
    ∧ (send_fragments "Rosie says:" 10 11 sample_env.send_results
        [.ok "Hello."] 0
      = (Event.sent_message 11 "Hello."
          :: Event.log_message 10
            (discord_message_to_generic_message sample_sent_raw)
          :: Event.log_response_part
          :: (send_fragments "Rosie says:" 10 11 sample_env.send_results [] 1).1,
        (send_fragments "Rosie says:" 10 11 sample_env.send_results [] 1).2)) :=
  ⟨(C2_fragment_filters "Rosie says:" 10 11 sample_env.send_results []
      0 "Rosie says:").1 rfl,
   (C2_fragment_filters "Rosie says:" 10 11 sample_env.send_results
      [.ok "ignored"] 0 "Narrator says:").2.1 (by decide) (by decide),
   (C2_fragment_filters "Rosie says:" 10 11 sample_env.send_results []
      0 "Hello.").2.2 (by decide) (by decide) sample_sent_raw rfl⟩

/-- C6: once the request is registered (`log_request_arrived` is always
emitted by the reply task), exactly one of `log_response_failure` and
`log_response_success` is emitted, never both and never twice: failure
exactly when the loop raised (while generating or sending), success on
normal completion — which includes the early stop of the `" says:"`
filter, since that exits the loop without an exception.  Already-sent
fragments stay in the trace; nothing retracts them. -/
theorem C6_exactly_one_report (bot : DiscordBot) (env : Env)
    (raw_message : RawMessage) (response_channel : Channel) :
    Event.log_request_arrived env.generated_prompt
        ∈ send_response_in_channel bot env raw_message response_channel
    ∧ (send_response_in_channel bot env raw_message response_channel).countP
          Event.is_log_response_failure
        + (send_response_in_channel bot env raw_message response_channel).countP
          Event.is_log_response_success = 1
    ∧ ((send_fragments bot.bot_prompt_line raw_message.channel.id
          response_channel.id env.send_results
          (if bot.dont_split_responses then env.request_as_string_items
            else env.request_by_sentence_items) 0).2 = true →
        (send_response_in_channel bot env raw_message response_channel).countP
            Event.is_log_response_failure = 1
        ∧ (send_response_in_channel bot env raw_message response_channel).countP
            Event.is_log_response_success = 0)
    ∧ ((send_fragments bot.bot_prompt_line raw_message.channel.id
          response_channel.id env.send_results
          (if bot.dont_split_responses then env.request_as_string_items
            else env.request_by_sentence_items) 0).2 = false →
        (send_response_in_channel bot env raw_message response_channel).countP
            Event.is_log_response_failure = 0
        ∧ (send_response_in_channel bot env raw_message response_channel).countP
            Event.is_log_response_success = 1) := by
  have hf0 := send_fragments_countP_zero bot.bot_prompt_line
    raw_message.channel.id response_channel.id env.send_results
    (if bot.dont_split_responses then env.request_as_string_items
      else env.request_by_sentence_items) 0
    Event.is_log_response_failure (fun s => rfl) (fun rm => rfl) rfl
  have hs0 := send_fragments_countP_zero bot.bot_prompt_line
    raw_message.channel.id response_channel.id env.send_results
    (if bot.dont_split_responses then env.request_as_string_items
      else env.request_by_sentence_items) 0
    Event.is_log_response_success (fun s => rfl) (fun rm => rfl) rfl
  refine ⟨by simp [send_response_in_channel], ?_, ?_, ?_⟩ <;>
    cases hsplit : (send_fragments bot.bot_prompt_line raw_message.channel.id
      response_channel.id env.send_results
      (if bot.dont_split_responses then env.request_as_string_items
        else env.request_by_sentence_items) 0).2 <;>
    simp [send_response_in_channel, hsplit, List.countP_append,
      List.countP_cons, hf0, hs0, Event.is_log_response_failure,
      Event.is_log_response_success]

/-- Witness for C6: on the sample inputs the clean stream reports one
success and no failure; the stream that raises after its first fragment
reports one failure and no success. -/
theorem C6_witness :
    ((send_response_in_channel sample_bot sample_env sample_raw_message
        sample_thread).countP Event.is_log_response_failure = 0
      ∧ (send_response_in_channel sample_bot sample_env sample_raw_message
        sample_thread).countP Event.is_log_response_success = 1)
    ∧ ((send_response_in_channel sample_bot sample_env_err sample_raw_message
        sample_thread).countP Event.is_log_response_failure = 1
      ∧ (send_response_in_channel sample_bot sample_env_err sample_raw_message
        sample_thread).countP Event.is_log_response_success = 0) :=
  ⟨(C6_exactly_one_report sample_bot sample_env sample_raw_message
      sample_thread).2.2.2 (by decide),
   (C6_exactly_one_report sample_bot sample_env_err sample_raw_message
      sample_thread).2.2.1 (by decide)⟩

/-- C8: the throttle-marker query opens the reply task's trace keyed by
the origin channel id (for every response channel, including a newly
created thread); every repetition-tracker report is keyed by the origin
channel id and carries a sent message converted back through the
normalizer; and the per-response part counter is incremented exactly
once per sent fragment. -/
theorem C8_origin_keyed (bot : DiscordBot) (env : Env)
    (raw_message : RawMessage) (response_channel : Channel) :
    (send_response_in_channel bot env raw_message response_channel).head?
        = some (Event.get_throttle_message_id raw_message.channel.id)
    ∧ (∀ cid g, Event.log_message cid g
          ∈ send_response_in_channel bot env raw_message response_channel →
        cid = raw_message.channel.id
        ∧ ∃ rm, g = discord_message_to_generic_message rm)
    ∧ (send_response_in_channel bot env raw_message response_channel).countP
          Event.is_sent_message
      = (send_response_in_channel bot env raw_message response_channel).countP
          Event.is_log_response_part
    ∧ (send_response_in_channel bot env raw_message response_channel).countP
          Event.is_log_message
      = (send_response_in_channel bot env raw_message response_channel).countP
          Event.is_log_response_part := by
  have hc := send_fragments_count bot.bot_prompt_line raw_message.channel.id
    response_channel.id env.send_results
    (if bot.dont_split_responses then env.request_as_string_items
      else env.request_by_sentence_items) 0
  refine ⟨by simp [send_response_in_channel], ?_, ?_, ?_⟩
  · intro cid g hmem
    rcases send_response_in_channel_mem bot env raw_message response_channel
        _ hmem with h | h | ⟨s, h⟩ | ⟨rm, h⟩ | h | h | h
    · simp at h
    · simp at h
    · simp at h
    · injection h with h1 h2
      exact ⟨h1, ⟨rm, h2⟩⟩
    · simp at h
    · simp at h
    · simp at h
  · cases hsplit : (send_fragments bot.bot_prompt_line raw_message.channel.id
      response_channel.id env.send_results
      (if bot.dont_split_responses then env.request_as_string_items
        else env.request_by_sentence_items) 0).2 <;>
    simp [send_response_in_channel, hsplit, List.countP_append,
      List.countP_cons, Event.is_sent_message, Event.is_log_response_part,
      hc.1]
  · cases hsplit : (send_fragments bot.bot_prompt_line raw_message.channel.id
      response_channel.id env.send_results
      (if bot.dont_split_responses then env.request_as_string_items
        else env.request_by_sentence_items) 0).2 <;>
    simp [send_response_in_channel, hsplit, List.countP_append,
      List.countP_cons, Event.is_log_message, Event.is_log_response_part,
      hc.2]

/-- Witness for C8: on the sample inputs the reply lands in the thread
(id 11) while the throttle query and the tracker report stay keyed by
the origin channel (id 10). -/
theorem C8_witness :
    ((send_response_in_channel sample_bot sample_env sample_raw_message
        sample_thread).head?
      = some (Event.get_throttle_message_id sample_raw_message.channel.id))
    ∧ (10 = sample_raw_message.channel.id
      ∧ ∃ rm, discord_message_to_generic_message sample_sent_raw
          = discord_message_to_generic_message rm) :=
  ⟨(C8_origin_keyed sample_bot sample_env sample_raw_message sample_thread).1,
   (C8_origin_keyed sample_bot sample_env sample_raw_message sample_thread).2.1
    10 (discord_message_to_generic_message sample_sent_raw) (by decide)⟩

/-- C3: if the reply-in-thread policy is off, or the origin is not a
`TextChannel`, or the author is not a guild member, the reply target is
the origin channel and no thread is created; if the policy is on, the
origin is a `TextChannel` and the (member) author may create public
threads, exactly one thread — named after the agent and the requesting
author — is created, it is the reply target, and its creation is the
first event of the run, before any reply fragment is sent. -/
theorem C3_channel_resolution (bot : DiscordBot) (env : Env)
    (raw_message : RawMessage) :
    ((bot.reply_in_thread = false
        ∨ raw_message.channel.ctype ≠ ChannelType.text
        ∨ raw_message.author.isMember = false) →
      send_response bot env raw_message = ([], some raw_message.channel))
    ∧ (bot.reply_in_thread = true →
        raw_message.channel.ctype = ChannelType.text →
        raw_message.author.isMember = true →
        env.create_public_threads = true →
        send_response bot env raw_message
          = ([Event.created_thread env.thread_id
                (bot.ai_name ++ ": Response to "
                  ++ raw_message.author.name)],
             some { id := env.thread_id, ctype := ChannelType.thread,
                    name := bot.ai_name ++ ": Response to "
                      ++ raw_message.author.name })
        ∧ (env.should_respond = true →
            (on_message bot env raw_message).trace.head?
              = some (Event.created_thread env.thread_id
                  (bot.ai_name ++ ": Response to "
                    ++ raw_message.author.name))
            ∧ (on_message bot env raw_message).trace.countP
                Event.is_created_thread = 1)) := by
  constructor
  · intro h
    unfold send_response
    rcases h with h | h | h <;> simp [h]
  · intro h1 h2 h3 h4
    have hsr : send_response bot env raw_message
        = ([Event.created_thread env.thread_id
              (bot.ai_name ++ ": Response to " ++ raw_message.author.name)],
           some { id := env.thread_id, ctype := ChannelType.thread,
                  name := bot.ai_name ++ ": Response to "
                    ++ raw_message.author.name }) := by
      unfold send_response
      simp [h1, h2, h3, h4]
    refine ⟨hsr, ?_⟩
    intro h5
    have h2sr : (send_response bot env raw_message).2
        = some { id := env.thread_id, ctype := ChannelType.thread,
                 name := bot.ai_name ++ ": Response to "
                   ++ raw_message.author.name } := by
      rw [hsr]
    rw [on_message_eq bot env raw_message _ h5 h2sr]
    have h1sr : (send_response bot env raw_message).1
        = [Event.created_thread env.thread_id
            (bot.ai_name ++ ": Response to " ++ raw_message.author.name)] := by
      rw [hsr]
    have hsu0 := summon_update_countP_zero env
      (discord_message_to_generic_message raw_message)
      { id := env.thread_id, ctype := ChannelType.thread,
        name := bot.ai_name ++ ": Response to " ++ raw_message.author.name }
      Event.is_created_thread (fun cid => rfl)
    have htext := send_response_in_channel_countP_zero bot env raw_message
      { id := env.thread_id, ctype := ChannelType.thread,
        name := bot.ai_name ++ ": Response to " ++ raw_message.author.name }
      Event.is_created_thread rfl rfl (fun s => rfl) (fun rm => rfl)
      rfl rfl rfl
    have himg : (env.image_task_steps.map Event.image_step).countP
        Event.is_created_thread = 0 := by
      rw [List.countP_eq_zero]
      intro e he
      obtain ⟨a, -, rfl⟩ := List.mem_map.mp he
      simp [Event.is_created_thread]
    constructor
    · rw [h1sr]
      simp
    · by_cases hcfg :
        (bot.image_generator_configured && env.image_prompt.isSome) = true
      · rw [if_pos hcfg, h1sr]
        simp [List.countP_append, List.countP_cons, hsu0,
          interleave_countP, htext, himg, Event.is_created_thread]
      · rw [if_neg hcfg, h1sr]
        simp [List.countP_append, List.countP_cons, hsu0,
          htext, Event.is_created_thread]

/-- Witness for C3: with the policy off the origin channel is the
target; with it on and permission granted, the sample run creates
exactly one thread named `"Rosie: Response to alice"`. -/
theorem C3_witness :
    send_response sample_bot_no_thread sample_env sample_raw_message
        = ([], some sample_raw_message.channel)
    ∧ send_response sample_bot sample_env sample_raw_message
        = ([Event.created_thread sample_env.thread_id
              (sample_bot.ai_name ++ ": Response to "
                ++ sample_raw_message.author.name)],
           some { id := sample_env.thread_id, ctype := ChannelType.thread,
                  name := sample_bot.ai_name ++ ": Response to "
                    ++ sample_raw_message.author.name })
    ∧ (on_message sample_bot sample_env sample_raw_message).trace.countP
        Event.is_created_thread = 1 :=
  ⟨(C3_channel_resolution sample_bot_no_thread sample_env
      sample_raw_message).1 (Or.inl rfl),
   ((C3_channel_resolution sample_bot sample_env sample_raw_message).2
      rfl rfl rfl rfl).1,
   ((((C3_channel_resolution sample_bot sample_env sample_raw_message).2
      rfl rfl rfl rfl).2) rfl).2⟩

/-- C4: when the reply-in-thread policy is on, the origin is a
`TextChannel`, the author is a member but lacks the
`create_public_threads` permission, resolution returns the
`(None, None)` sentinel pair and `on_message` aborts silently: its
whole trace is empty — no thread creation, no sent message, no mention
registration, no stats call (in particular no `log_request_arrived`) —
and the message object is left untouched. -/
theorem C4_declined_abort (bot : DiscordBot) (env : Env)
    (raw_message : RawMessage)
    (h1 : env.should_respond = true)
    (h2 : bot.reply_in_thread = true)
    (h3 : raw_message.channel.ctype = ChannelType.text)
    (h4 : raw_message.author.isMember = true)
    (h5 : env.create_public_threads = false) :
    send_response bot env raw_message = ([], none)
    ∧ (on_message bot env raw_message).trace = []
    ∧ (on_message bot env raw_message).message
        = discord_message_to_generic_message raw_message
    ∧ (on_message bot env raw_message).channel_id_rewrites = 0 := by
  have hsr : send_response bot env raw_message = ([], none) := by
    unfold send_response
    simp [h2, h3, h4, h5]
  refine ⟨hsr, ?_, ?_, ?_⟩ <;> simp [on_message, h1, hsr]

/-- Witness for C4 on the sample inputs with permission denied. -/
theorem C4_witness :
    send_response sample_bot sample_env_declined sample_raw_message
        = ([], none)
    ∧ (on_message sample_bot sample_env_declined sample_raw_message).trace = []
    ∧ (on_message sample_bot sample_env_declined sample_raw_message).message
        = discord_message_to_generic_message sample_raw_message
    ∧ (on_message sample_bot sample_env_declined
        sample_raw_message).channel_id_rewrites = 0 :=
  C4_declined_abort sample_bot sample_env_declined sample_raw_message
    rfl rfl rfl rfl rfl

/-- C1: when both the text-reply task and the image task are spawned,
`await asyncio.wait` (default `ALL_COMPLETED`) ends the handling of the
message only after both tasks have settled: the final trace is exactly
the synchronous events followed by an interleaving that contains every
event of the text task and every event of the image task, in task
order, for every schedule — in particular also when one task fails
(the hypotheses do not restrict the stream items or send results, so
the text task's trace may end in `log_response_failure` and the image
task is still fully contained, and conversely). -/
theorem C1_wait_for_all (bot : DiscordBot) (env : Env)
    (raw_message : RawMessage) (response_channel : Channel)
    (h1 : env.should_respond = true)
    (h2 : (send_response bot env raw_message).2 = some response_channel)
    (h3 : bot.image_generator_configured = true)
    (h4 : env.image_prompt.isSome = true) :
    (on_message bot env raw_message).trace
      = (send_response bot env raw_message).1
        ++ (summon_update env (discord_message_to_generic_message raw_message)
            response_channel).2.2
        ++ interleave env.sched
            (send_response_in_channel bot env raw_message response_channel)
            (env.image_task_steps.map Event.image_step)
    ∧ List.Sublist
        (send_response_in_channel bot env raw_message response_channel)
        (on_message bot env raw_message).trace
    ∧ List.Sublist (env.image_task_steps.map Event.image_step)
        (on_message bot env raw_message).trace
    ∧ (interleave env.sched
        (send_response_in_channel bot env raw_message response_channel)
        (env.image_task_steps.map Event.image_step)).length
      = (send_response_in_channel bot env raw_message response_channel).length
        + (env.image_task_steps.map Event.image_step).length := by
  have htr : (on_message bot env raw_message).trace
      = (send_response bot env raw_message).1
        ++ (summon_update env (discord_message_to_generic_message raw_message)
            response_channel).2.2
        ++ interleave env.sched
            (send_response_in_channel bot env raw_message response_channel)
            (env.image_task_steps.map Event.image_step) := by
    rw [on_message_eq bot env raw_message response_channel h1 h2]
    simp [h3, h4]
  refine ⟨htr, ?_, ?_, ?_⟩
  · rw [htr]
    exact (interleave_sublist_left env.sched _ _).trans
      (List.sublist_append_right _ _)
  · rw [htr]
    exact (interleave_sublist_right env.sched _ _).trans
      (List.sublist_append_right _ _)
  · simpa using (interleave_perm env.sched
      (send_response_in_channel bot env raw_message response_channel)
      (env.image_task_steps.map Event.image_step)).length_eq

/-- Witness for C1 on the sample inputs (reply thread created, image
requested, schedule `[true, false]`). -/
theorem C1_witness :
    (on_message sample_bot sample_env sample_raw_message).trace
      = (send_response sample_bot sample_env sample_raw_message).1
        ++ (summon_update sample_env
            (discord_message_to_generic_message sample_raw_message)
            sample_thread).2.2
        ++ interleave sample_env.sched
            (send_response_in_channel sample_bot sample_env
              sample_raw_message sample_thread)
            (sample_env.image_task_steps.map Event.image_step)
    ∧ List.Sublist
        (send_response_in_channel sample_bot sample_env sample_raw_message
          sample_thread)
        (on_message sample_bot sample_env sample_raw_message).trace
    ∧ List.Sublist (sample_env.image_task_steps.map Event.image_step)
        (on_message sample_bot sample_env sample_raw_message).trace
    ∧ (interleave sample_env.sched
        (send_response_in_channel sample_bot sample_env sample_raw_message
          sample_thread)
        (sample_env.image_task_steps.map Event.image_step)).length
      = (send_response_in_channel sample_bot sample_env sample_raw_message
          sample_thread).length
        + (sample_env.image_task_steps.map Event.image_step).length :=
  C1_wait_for_all sample_bot sample_env sample_raw_message sample_thread
    rfl (by decide) rfl rfl

/-- C7: the `channel_id` assignment of line 261 runs at most once per
handled message; every mention registered with the decision gate
carries the (possibly rewritten) channel id of the final message; no
field other than `channel_id` ever differs from the freshly normalized
message; and whenever the final message differs at all, the message was
a summoning `ChannelMessage` whose reply landed in a thread newly
created by `send_response`, and its channel id is that new thread's
id. -/
theorem C7_rewrite_once (bot : DiscordBot) (env : Env)
    (raw_message : RawMessage) :
    (on_message bot env raw_message).channel_id_rewrites ≤ 1
    ∧ (∀ cid, Event.log_mention cid ∈ (on_message bot env raw_message).trace →
        cid = (on_message bot env raw_message).message.get_channel_id)
    ∧ ((on_message bot env raw_message).message
          = discord_message_to_generic_message raw_message
      ∨ ∃ args cid mentions cid2,
          discord_message_to_generic_message raw_message
            = .channel args cid mentions
          ∧ (on_message bot env raw_message).message
            = .channel args cid2 mentions)
    ∧ ((on_message bot env raw_message).message
          ≠ discord_message_to_generic_message raw_message →
        env.is_summon = true
        ∧ (discord_message_to_generic_message raw_message).is_channel_message
            = true
        ∧ bot.reply_in_thread = true
        ∧ raw_message.channel.ctype = ChannelType.text
        ∧ raw_message.author.isMember = true
        ∧ env.create_public_threads = true
        ∧ (on_message bot env raw_message).message.get_channel_id
            = env.thread_id) := by
  by_cases h1 : env.should_respond = true
  · rcases hsr : (send_response bot env raw_message).2 with _ | ch
    · have hom : on_message bot env raw_message
          = { trace := (send_response bot env raw_message).1
              message := discord_message_to_generic_message raw_message
              channel_id_rewrites := 0 } := by
        simp [on_message, h1, hsr]
      rw [hom]
      refine ⟨by simp, ?_, Or.inl rfl, fun hne => absurd rfl hne⟩
      intro cid hc
      rcases send_response_first bot env raw_message with h | h <;>
        rw [h] at hc <;> simp at hc
    · rw [on_message_eq bot env raw_message ch h1 hsr]
      have hno_text : ∀ cid, Event.log_mention cid
          ∈ send_response_in_channel bot env raw_message ch → False := by
        intro cid hm
        rcases send_response_in_channel_mem bot env raw_message ch _ hm with
          h | h | ⟨s, h⟩ | ⟨rm, h⟩ | h | h | h <;> simp at h
      have hno_img : ∀ cid, Event.log_mention cid
          ∈ env.image_task_steps.map Event.image_step → False := by
        intro cid hm
        obtain ⟨a, -, h⟩ := List.mem_map.mp hm
        simp at h
      have hno_tasks : ∀ cid, Event.log_mention cid
          ∈ (if (bot.image_generator_configured && env.image_prompt.isSome)
                = true then
              interleave env.sched
                (send_response_in_channel bot env raw_message ch)
                (env.image_task_steps.map Event.image_step)
            else send_response_in_channel bot env raw_message ch) → False := by
        intro cid hm
        split at hm
        · rcases List.mem_append.mp
              ((interleave_perm env.sched _ _).mem_iff.mp hm) with hm3 | hm3
          · exact hno_text cid hm3
          · exact hno_img cid hm3
        · exact hno_text cid hm
      have hno_first : ∀ cid, Event.log_mention cid
          ∈ (send_response bot env raw_message).1 → False := by
        intro cid hm
        rcases send_response_first bot env raw_message with h | h <;>
          rw [h] at hm <;> simp at hm
      have hmention : ∀ cid, Event.log_mention cid
          ∈ (send_response bot env raw_message).1
            ++ (summon_update env
                (discord_message_to_generic_message raw_message) ch).2.2
            ++ (if (bot.image_generator_configured && env.image_prompt.isSome)
                  = true then
                interleave env.sched
                  (send_response_in_channel bot env raw_message ch)
                  (env.image_task_steps.map Event.image_step)
              else send_response_in_channel bot env raw_message ch) →
          cid = (summon_update env
            (discord_message_to_generic_message raw_message) ch).1.get_channel_id := by
        intro cid hm
        rcases List.mem_append.mp hm with hm1 | hm1
        · rcases List.mem_append.mp hm1 with hm2 | hm2
          · exact (hno_first cid hm2).elim
          · exact summon_update_mention env _ ch cid hm2
        · exact (hno_tasks cid hm1).elim
      rcases summon_update_cases env
          (discord_message_to_generic_message raw_message) ch with
        ⟨args, cid0, mentions, hsum, hmsg, ⟨hct, heq⟩ | ⟨hct, heq⟩⟩ | heq
      · refine ⟨by simp [heq], hmention, ?_, ?_⟩
        · exact Or.inr ⟨args, cid0, mentions, ch.id, hmsg, by simp [heq]⟩
        · intro hne
          rcases send_response_channel_cases bot env raw_message ch hsr with
            hch | ⟨hb1, hb2, hb3, hb4, hch⟩
          · exfalso
            apply hne
            have hcid : ch.id = cid0 := by
              rw [hch,
                ← converted_channel_id raw_message args cid0 mentions hmsg]
            simp only [heq, hcid]
            exact hmsg.symm
          · refine ⟨hsum, by rw [hmsg]; rfl, hb1, hb2, hb3, hb4, ?_⟩
            show (summon_update env
              (discord_message_to_generic_message raw_message) ch).1.get_channel_id
              = env.thread_id
            have hval : (summon_update env
                (discord_message_to_generic_message raw_message) ch).1
                = GenericMessage.channel args ch.id mentions := by
              rw [heq]
            rw [hval, hch]
            rfl
      · refine ⟨by simp [heq], hmention, Or.inl (by simp [heq]),
          fun hne => absurd (by simp [heq]) hne⟩
      · refine ⟨by simp [heq], hmention, Or.inl (by simp [heq]),
          fun hne => absurd (by simp [heq]) hne⟩
  · have hb : env.should_respond = false := by
      revert h1
      cases env.should_respond <;> simp
    have hom : on_message bot env raw_message
        = { trace := []
            message := discord_message_to_generic_message raw_message
            channel_id_rewrites := 0 } := by
      simp [on_message, hb]
    rw [hom]
    refine ⟨by simp, ?_, Or.inl rfl, fun hne => absurd rfl hne⟩
    intro cid hc
    simp at hc

/-- Witness for C7 on the sample inputs: the summoned message's channel
id is rewritten (once) to the created thread's id 11, and the mention
registered with the decision gate carries 11. -/
theorem C7_witness :
    (on_message sample_bot sample_env sample_raw_message).channel_id_rewrites
        ≤ 1
    ∧ (11 = (on_message sample_bot sample_env
        sample_raw_message).message.get_channel_id)
    ∧ (sample_env.is_summon = true
      ∧ (discord_message_to_generic_message
          sample_raw_message).is_channel_message = true
      ∧ sample_bot.reply_in_thread = true
      ∧ sample_raw_message.channel.ctype = ChannelType.text
      ∧ sample_raw_message.author.isMember = true
      ∧ sample_env.create_public_threads = true
      ∧ (on_message sample_bot sample_env
          sample_raw_message).message.get_channel_id = sample_env.thread_id) :=
  ⟨(C7_rewrite_once sample_bot sample_env sample_raw_message).1,
   (C7_rewrite_once sample_bot sample_env sample_raw_message).2.1 11
      (by decide),
   (C7_rewrite_once sample_bot sample_env sample_raw_message).2.2.2
      (by decide)⟩

/-- C10: `channel_last_direct_response` is initialized to the empty map
by the constructor and is neither read nor written afterwards: none of
the modelled operations takes any input from it (their results are
identical for every value of the field), and none of them produces an
updated bot state (the source assigns the field only at line 99, in
`__init__`), so it remains the empty map. -/
theorem C10_unused_map (ai_name persona : String)
    (image_generator_configured ignore_dms dont_split_responses
      reply_in_thread log_all_the_things : Bool)
    (bot_prompt_line : String) (history_lines : Nat) :
    (DiscordBot.init ai_name persona image_generator_configured ignore_dms
        dont_split_responses reply_in_thread log_all_the_things
        bot_prompt_line history_lines).channel_last_direct_response = []
    ∧ (∀ (bot : DiscordBot) (m : List (Nat × Int)) (env : Env)
          (raw_message : RawMessage),
        on_message { bot with channel_last_direct_response := m } env
            raw_message
          = on_message bot env raw_message
        ∧ send_response { bot with channel_last_direct_response := m } env
            raw_message
          = send_response bot env raw_message
        ∧ (∀ response_channel,
            send_response_in_channel
                { bot with channel_last_direct_response := m } env
                raw_message response_channel
              = send_response_in_channel bot env raw_message
                response_channel)
        ∧ ∀ channel_full_history,
            recent_messages_following_thread
                { bot with channel_last_direct_response := m }
                channel_full_history
              = recent_messages_following_thread bot channel_full_history) := by
  refine ⟨rfl, ?_⟩
  intro bot m env raw_message
  cases bot
  exact ⟨rfl, rfl, fun _ => rfl, fun _ => rfl⟩

end Oobabot
